import Mathlib

/-!
# Verification of the simple-go-echo Todo service

Shallow embedding of the repository manish-npx/simple-go-echo:

* `internal/models/todo.go`            → `Todo`
* `internal/storage/todo.go` (part_001) → `TodoStorage.*` over an abstract
  relational `Store` (rows of the `todos` table plus the SERIAL sequence)
* `internal/http/handlers/todo.go`     → `TodoHandler.*`
* `internal/utils/response` (part_002) → `response.*`
* `internal/handlers/todo_handler.go`, `internal/services/todo_service.go`,
  `internal/repository` (part_003)     → context-flow definitions `*PersistCtx`

The database is modelled as the list of rows of the `todos` table together
with the next value of the SERIAL id sequence.  A possible infrastructure
failure of a single database call is injected through an explicit
`fail : Option String` argument (`none` = the call reaches the database and
behaves per SQL semantics, `some msg` = the driver reports error `msg`).
-/

/-- JSON values, as produced by Go's encoding/json via echo's c.JSON. -/
inductive Json where
  | null
  | str (s : String)
  | num (n : Int)
  | bool (b : Bool)
  | arr (elems : List Json)
  | obj (fields : List (String × Json))
deriving Repr

/-- True exactly on JSON arrays. -/
def Json.isArr : Json → Bool
  | .arr _ => true
  | _ => false

/-- An HTTP response: status code and optional JSON body
(`none` = no body, as produced by c.NoContent). -/
structure Response where
  status : Nat
  body : Option Json
deriving Repr

/-- internal/utils/response: OK writes 200 with the payload. -/
def response.OK (data : Json) : Response := ⟨200, some data⟩

/-- internal/utils/response: Created writes 201 with the payload. -/
def response.Created (data : Json) : Response := ⟨201, some data⟩

/-- internal/utils/response: NoContent writes 204 with no body. -/
def response.NoContent : Response := ⟨204, none⟩

/-- internal/utils/response: BadRequest writes 400 with an error object. -/
def response.BadRequest (msg : String) : Response :=
  ⟨400, some (.obj [("error", .str msg)])⟩

/-- internal/utils/response: NotFound writes 404 with an error object. -/
def response.NotFound (msg : String) : Response :=
  ⟨404, some (.obj [("error", .str msg)])⟩

/-- internal/utils/response: InternalServerError writes 500 with err.Error(). -/
def response.InternalServerError (msg : String) : Response :=
  ⟨500, some (.obj [("error", .str msg)])⟩

/-- internal/models/todo.go: the Todo struct (ID int64, Title string, Done bool). -/
structure Todo where
  id : Int
  title : String
  done : Bool
deriving Repr, DecidableEq

/-- JSON serialization of a Todo per its struct tags: id, title, done. -/
def Todo.toJson (t : Todo) : Json :=
  .obj [("id", .num t.id), ("title", .str t.title), ("done", .bool t.done)]

/-- Go marshals a nil slice to JSON null.  `storage.GetAll` builds its result
with `var todos []models.Todo` and appends one element per row, so the slice
is nil exactly when there are no rows: zero rows serialize to null, one or
more rows serialize to a JSON array. -/
def encodeTodoSlice (ts : List Todo) : Json :=
  match ts with
  | [] => Json.null
  | _ => Json.arr (ts.map Todo.toJson)

/-- A row of the `todos` table (schema from the README: id SERIAL PRIMARY KEY,
title VARCHAR NOT NULL, done BOOLEAN, created_at TIMESTAMP DEFAULT now). -/
structure Row where
  id : Int
  title : String
  done : Bool
  createdAt : Int
deriving Repr, DecidableEq

/-- The Todo entity read from a row (SELECT id, title, done). -/
def Row.toTodo (r : Row) : Todo := ⟨r.id, r.title, r.done⟩

/-- State of the database: the rows of the `todos` table and the next value
of the SERIAL sequence backing the id column. -/
structure Store where
  rows : List Row
  nextId : Int
deriving Repr, DecidableEq

/-- Well-formedness guaranteed by PostgreSQL for this schema: the primary key
makes ids pairwise distinct, and SERIAL only hands out values larger than any
id it has already assigned. -/
def Store.WF (s : Store) : Prop :=
  (s.rows.map Row.id).Nodup ∧ ∀ r ∈ s.rows, r.id < s.nextId

instance (s : Store) : Decidable s.WF := by
  unfold Store.WF; infer_instance

/-- Errors surfaced by the storage layer: the named ErrTodoNotFound, or a
driver error passed through unchanged (Create, GetAll, and the Exec step of
Delete propagate the underlying error). -/
inductive StoreError where
  | todoNotFound
  | dbError (msg : String)
deriving Repr, DecidableEq

/-- The message carried by a storage error (ErrTodoNotFound's text is
"todo not found"). -/
def StoreError.msg : StoreError → String
  | .todoNotFound => "todo not found"
  | .dbError m => m

/-- Errors of a single database query: no matching row (pgx.ErrNoRows from
QueryRow.Scan), or an infrastructure failure with the driver's message. -/
inductive DBError where
  | noRows
  | other (msg : String)
deriving Repr, DecidableEq

/-- SQL semantics of `SELECT id, title, done FROM todos WHERE id=$1` through
QueryRow.Scan: an injected infrastructure failure is that failure; otherwise
the first row matching the id, or noRows when none matches. -/
def rawGetByID (fail : Option String) (s : Store) (id : Int) :
    Except DBError Row :=
  match fail with
  | some m => .error (.other m)
  | none =>
    match s.rows.find? (fun r => r.id = id) with
    | some r => .ok r
    | none => .error .noRows

/-- SQL semantics of `UPDATE todos SET title=$1, done=$2 WHERE id=$3
RETURNING id, title, done`: every row matching the id has its title and done
replaced (id and created_at are not in the SET list), and the updated row is
returned; noRows when nothing matched. -/
def rawUpdate (fail : Option String) (s : Store) (id : Int) (todo : Todo) :
    Except DBError (Row × Store) :=
  match fail with
  | some m => .error (.other m)
  | none =>
    match s.rows.find? (fun r => r.id = id) with
    | none => .error .noRows
    | some r =>
      .ok ({ r with title := todo.title, done := todo.done },
           ⟨s.rows.map (fun x =>
              if x.id = id then { x with title := todo.title, done := todo.done }
              else x),
            s.nextId⟩)

/-- storage.Create: `INSERT INTO todos (title, done) VALUES ($1, $2)
RETURNING id`.  Only title and done come from the caller; the id is the next
SERIAL value and created_at takes the column default (the insertion time,
passed here as `now`).  The returned id is the freshly assigned one; a driver
failure is returned unchanged. -/
def TodoStorage.Create (fail : Option String) (s : Store) (todo : Todo)
    (now : Int) : Except StoreError (Int × Store) :=
  match fail with
  | some m => .error (.dbError m)
  | none =>
    .ok (s.nextId,
         ⟨s.rows ++ [⟨s.nextId, todo.title, todo.done, now⟩], s.nextId + 1⟩)

/-- storage.GetAll: `SELECT id, title, done FROM todos ORDER BY id`, scanning
each row into a Todo; a query failure is returned unchanged. -/
def TodoStorage.GetAll (fail : Option String) (s : Store) :
    Except StoreError (List Todo) :=
  match fail with
  | some m => .error (.dbError m)
  | none =>
    .ok ((List.insertionSort (fun a b : Row => a.id ≤ b.id) s.rows).map Row.toTodo)

/-- storage.GetByID: runs the SELECT and, on ANY error from Scan (noRows or
infrastructure failure alike), returns ErrTodoNotFound. -/
def TodoStorage.GetByID (fail : Option String) (s : Store) (id : Int) :
    Except StoreError Todo :=
  match rawGetByID fail s id with
  | .ok r => .ok r.toTodo
  | .error _ => .error .todoNotFound

/-- storage.Update: runs the UPDATE...RETURNING and, on ANY error from Scan
(noRows or infrastructure failure alike), returns ErrTodoNotFound. -/
def TodoStorage.Update (fail : Option String) (s : Store) (id : Int)
    (todo : Todo) : Except StoreError (Todo × Store) :=
  match rawUpdate fail s id todo with
  | .ok (r, s') => .ok (r.toTodo, s')
  | .error _ => .error .todoNotFound

/-- The rows kept by `DELETE FROM todos WHERE id=$1`: those whose id does
not match. -/
def keepRow (id : Int) (r : Row) : Bool := ¬ r.id = id

/-- storage.Delete: `DELETE FROM todos WHERE id=$1`; an Exec failure is
returned unchanged; otherwise RowsAffected is inspected and zero affected
rows yield ErrTodoNotFound. -/
def TodoStorage.Delete (fail : Option String) (s : Store) (id : Int) :
    Except StoreError Store :=
  match fail with
  | some m => .error (.dbError m)
  | none =>
    let remaining := s.rows.filter (keepRow id)
    let affected := s.rows.length - remaining.length
    if affected = 0 then .error .todoNotFound
    else .ok ⟨remaining, s.nextId⟩

/-- strconv.ParseInt of the digit part: one or more ASCII digits. -/
def parseDigits (cs : List Char) : Option Nat :=
  match cs with
  | [] => none
  | _ =>
    if cs.all Char.isDigit then
      some (cs.foldl (fun acc c => acc * 10 + (c.toNat - 48)) 0)
    else none

/-- strconv.ParseInt(str, 10, 64): optional leading sign, one or more ASCII
digits, value within the int64 range; anything else is an error (the handler
only checks err, so the clamped value Go also returns is irrelevant). -/
def parseInt64 (str : String) : Option Int :=
  let cs := str.toList
  let signAndDigits : Bool × List Char :=
    match cs with
    | '-' :: rest => (true, rest)
    | '+' :: rest => (false, rest)
    | rest => (false, rest)
  match parseDigits signAndDigits.2 with
  | none => none
  | some n =>
    let v : Int := if signAndDigits.1 then -(n : Int) else (n : Int)
    if -(2 ^ 63) ≤ v ∧ v ≤ 2 ^ 63 - 1 then some v else none

/-- handlers.GetAll: calls storage.GetAll with the request context; a storage
error becomes 500 with the error's message, otherwise 200 with the slice. -/
def TodoHandler.GetAll (fail : Option String) (s : Store) : Response :=
  match TodoStorage.GetAll fail s with
  | .error e => response.InternalServerError e.msg
  | .ok todos => response.OK (encodeTodoSlice todos)

/-- handlers.GetByID: parse the id path parameter (400 "Invalid ID" on
failure), call storage.GetByID, 404 "Todo not found" on any storage error,
otherwise 200 with the Todo. -/
def TodoHandler.GetByID (fail : Option String) (s : Store)
    (idParam : String) : Response :=
  match parseInt64 idParam with
  | none => response.BadRequest "Invalid ID"
  | some id =>
    match TodoStorage.GetByID fail s id with
    | .error _ => response.NotFound "Todo not found"
    | .ok todo => response.OK todo.toJson

/-- handlers.Create: bind the body (400 "Invalid request body" on failure;
`body = none` models a bind error), reject an empty title with 400 "Title is
required" before any storage call, else storage.Create; a storage error is
500 with its message; on success the returned id is set on the payload and
201 is written with it.  Returns the response and the resulting store. -/
def TodoHandler.Create (fail : Option String) (s : Store)
    (body : Option Todo) (now : Int) : Response × Store :=
  match body with
  | none => (response.BadRequest "Invalid request body", s)
  | some todo =>
    if todo.title = "" then (response.BadRequest "Title is required", s)
    else
      match TodoStorage.Create fail s todo now with
      | .error e => (response.InternalServerError e.msg, s)
      | .ok (id, s') => (response.Created (Todo.toJson { todo with id := id }), s')

/-- handlers.Update: parse the id (400 "Invalid ID"), bind the body (400
"Invalid request body"), reject an empty title (400 "Title is required"),
else storage.Update; any storage error is 404 "Todo not found"; otherwise
200 with the updated Todo. -/
def TodoHandler.Update (fail : Option String) (s : Store) (idParam : String)
    (body : Option Todo) : Response × Store :=
  match parseInt64 idParam with
  | none => (response.BadRequest "Invalid ID", s)
  | some id =>
    match body with
    | none => (response.BadRequest "Invalid request body", s)
    | some todo =>
      if todo.title = "" then (response.BadRequest "Title is required", s)
      else
        match TodoStorage.Update fail s id todo with
        | .error _ => (response.NotFound "Todo not found", s)
        | .ok (t, s') => (response.OK t.toJson, s')

/-- handlers.Delete: parse the id (400 "Invalid ID"), call storage.Delete;
any storage error is 404 "Todo not found"; otherwise 204 with no body. -/
def TodoHandler.Delete (fail : Option String) (s : Store)
    (idParam : String) : Response × Store :=
  match parseInt64 idParam with
  | none => (response.BadRequest "Invalid ID", s)
  | some id =>
    match TodoStorage.Delete fail s id with
    | .error _ => (response.NotFound "Todo not found", s)
    | .ok s' => (response.NoContent, s')

/-- Operation contexts, as opaque tokens: context.Background() is one value,
and each request carries its own context (c.Request().Context()), distinct
from Background. -/
inductive Ctx where
  | background
  | requestCtx (n : Nat)
deriving Repr, DecidableEq

/-- The context argument handlers.GetAll passes to its storage call:
h.storage.GetAll(c.Request().Context()). -/
def TodoHandler.GetAllPersistCtx (requestCtx : Ctx) : Ctx := requestCtx

/-- The context argument handlers.GetByID passes to its storage call:
h.storage.GetByID(c.Request().Context(), id). -/
def TodoHandler.GetByIDPersistCtx (requestCtx : Ctx) : Ctx := requestCtx

/-- The context argument handlers.Create passes to its storage call:
h.storage.Create(c.Request().Context(), &todo). -/
def TodoHandler.CreatePersistCtx (requestCtx : Ctx) : Ctx := requestCtx

/-- The context argument handlers.Update passes to its storage call:
h.storage.Update(c.Request().Context(), id, &todo). -/
def TodoHandler.UpdatePersistCtx (requestCtx : Ctx) : Ctx := requestCtx

/-- The context argument handlers.Delete passes to its storage call:
h.storage.Delete(c.Request().Context(), id). -/
def TodoHandler.DeletePersistCtx (requestCtx : Ctx) : Ctx := requestCtx

/-- The context argument the variant list handler GetTodos
(internal/handlers/todo_handler.go) passes to its persistence call:
t.service.ListTodo(context.Background()) — a fresh background context, not
the request's. -/
def TodoHandler.GetTodosPersistCtx (_requestCtx : Ctx) : Ctx := Ctx.background

/-- services.ListTodo forwards its context unchanged to repo.GetAll
(internal/services/todo_service.go). -/
def TodoService.ListTodoRepoCtx (ctx : Ctx) : Ctx := ctx

/-- Transitions of the durable store reachable through the HTTP interface:
one step per routed handler invocation, with arbitrary request inputs and
arbitrary infrastructure behaviour.  GetAll and GetByID never write. -/
inductive Step : Store → Store → Prop where
  | create (fail : Option String) (body : Option Todo) (now : Int) (s : Store) :
      Step s (TodoHandler.Create fail s body now).2
  | update (fail : Option String) (idParam : String) (body : Option Todo)
      (s : Store) : Step s (TodoHandler.Update fail s idParam body).2
  | delete (fail : Option String) (idParam : String) (s : Store) :
      Step s (TodoHandler.Delete fail s idParam).2
  | getAll (s : Store) : Step s s
  | getByID (s : Store) : Step s s

/-- Every persisted Todo has a non-empty title. -/
def TitlesOK (s : Store) : Prop := ∀ r ∈ s.rows, ¬ r.title = ""

/-- A one-row demonstration store: the row with id 1, and 2 as the next
SERIAL value. -/
def demoStore : Store := ⟨[⟨1, "buy milk", false, 0⟩], 2⟩

instance : IsTotal Row (fun a b => a.id ≤ b.id) :=
  ⟨fun a b => le_total a.id b.id⟩

instance : IsTrans Row (fun a b => a.id ≤ b.id) :=
  ⟨fun _ _ _ hab hbc => le_trans hab hbc⟩

/-- C2: amended. With a non-failing store, the list endpoint always responds
200; the payload is all persisted Todos ordered by ascending id; when at
least one Todo exists the body is a JSON array, but when none exist the body
is JSON null (Go marshals the nil slice to null), not an empty array; a
store failure is a 500 with the error's message. -/
theorem getAll_contract (s : Store) :
    ∃ ts : List Todo,
      TodoStorage.GetAll none s = .ok ts ∧
      TodoHandler.GetAll none s = ⟨200, some (encodeTodoSlice ts)⟩ ∧
      List.Pairwise (fun a b : Todo => a.id ≤ b.id) ts ∧
      ts.Perm (s.rows.map Row.toTodo) ∧
      encodeTodoSlice ts
        = (if s.rows.isEmpty then Json.null else Json.arr (ts.map Todo.toJson)) ∧
      (∀ m, TodoHandler.GetAll (some m) s = response.InternalServerError m) := by
  refine ⟨(List.insertionSort (fun a b : Row => a.id ≤ b.id) s.rows).map Row.toTodo,
    rfl, rfl, ?_, ?_, ?_, fun m => rfl⟩
  · have hs := List.sorted_insertionSort (fun a b : Row => a.id ≤ b.id) s.rows
    exact List.Pairwise.map Row.toTodo (fun a b h => h) hs
  · exact (List.perm_insertionSort _ s.rows).map Row.toTodo
  · cases hr : s.rows with
    | nil => simp [hr, encodeTodoSlice]
    | cons a l =>
      have hlen :
          ((List.insertionSort (fun a b : Row => a.id ≤ b.id) s.rows).map
            Row.toTodo).length = (a :: l).length := by
        rw [List.length_map, (List.perm_insertionSort _ s.rows).length_eq, hr]
      cases hts : (List.insertionSort (fun a b : Row => a.id ≤ b.id) s.rows).map
          Row.toTodo with
      | nil => rw [hts] at hlen; simp at hlen
      | cons t ts' =>
        rw [hr] at hts
        rw [hts]
        simp [encodeTodoSlice]

/-- C2: counterexample. On the empty store the list endpoint responds 200
with body JSON null — not a JSON array — because the Go slice built by
storage.GetAll is nil when there are no rows and marshals to null. -/
theorem getAll_empty_body_is_null :
    TodoHandler.GetAll none ⟨[], 1⟩ = ⟨200, some Json.null⟩ ∧
    Json.isArr Json.null = false :=
  ⟨rfl, rfl⟩

/-- C1: amended. For get-by-id and update the persistence layer collapses
every error — the no-row case and any other store failure alike — into the
single named ErrTodoNotFound, and the handlers respond 404 "Todo not found"
for any storage failure on these two operations; no store failure of these
operations is ever surfaced as a 500. -/
theorem getByID_update_error_collapse (fail : Option String) (s : Store)
    (id : Int) (todo : Todo) (idStr : String)
    (hp : parseInt64 idStr = some id) :
    (∀ e, TodoStorage.GetByID fail s id = .error e → e = .todoNotFound) ∧
    (TodoStorage.GetByID fail s id = .error .todoNotFound ↔
      fail.isSome = true ∨ s.rows.find? (fun r => r.id = id) = none) ∧
    (∀ e, TodoStorage.Update fail s id todo = .error e → e = .todoNotFound) ∧
    (TodoStorage.Update fail s id todo = .error .todoNotFound ↔
      fail.isSome = true ∨ s.rows.find? (fun r => r.id = id) = none) ∧
    (TodoHandler.GetByID fail s idStr).status ≠ 500 ∧
    (TodoHandler.Update fail s idStr (some todo)).1.status ≠ 500 := by
  refine ⟨?_, ?_, ?_, ?_, ?_, ?_⟩
  · intro e he
    cases h : rawGetByID fail s id with
    | ok r => simp [TodoStorage.GetByID, h] at he
    | error d => simp [TodoStorage.GetByID, h] at he; exact he.symm
  · cases fail with
    | some m => simp [TodoStorage.GetByID, rawGetByID]
    | none =>
      cases hf : s.rows.find? (fun r => r.id = id) with
      | some r => simp [TodoStorage.GetByID, rawGetByID, hf]
      | none => simp [TodoStorage.GetByID, rawGetByID, hf]
  · intro e he
    cases h : rawUpdate fail s id todo with
    | ok p => simp [TodoStorage.Update, h] at he
    | error d => simp [TodoStorage.Update, h] at he; exact he.symm
  · cases fail with
    | some m => simp [TodoStorage.Update, rawUpdate]
    | none =>
      cases hf : s.rows.find? (fun r => r.id = id) with
      | some r => simp [TodoStorage.Update, rawUpdate, hf]
      | none => simp [TodoStorage.Update, rawUpdate, hf]
  · unfold TodoHandler.GetByID
    rw [hp]
    cases hv : TodoStorage.GetByID fail s id with
    | error e => simp [hv, response.NotFound]
    | ok t => simp [hv, response.OK]
  · unfold TodoHandler.Update
    rw [hp]
    by_cases ht : todo.title = ""
    · simp [ht, response.BadRequest]
    · cases hv : TodoStorage.Update fail s id todo with
      | error e => simp [ht, hv, response.NotFound]
      | ok p => simp [ht, hv, response.OK]

/-- C1: counterexample. A store failure ("connection lost") during GetByID
on an id that does have a matching row is reported as the NotFound error,
not as a distinct error, and the handler responds 404 — not 500. -/
theorem getByID_store_failure_is_404 :
    TodoStorage.GetByID (some "connection lost") demoStore 1
      = .error .todoNotFound ∧
    (demoStore.rows.find? (fun r => r.id = 1)).isSome = true ∧
    TodoHandler.GetByID (some "connection lost") demoStore "1"
      = response.NotFound "Todo not found" ∧
    (TodoHandler.GetByID (some "connection lost") demoStore "1").status ≠ 500 := by
  exact ⟨rfl, rfl, rfl, by decide⟩

/-- C1: witness for the amended theorem, at a concrete failing store. -/
theorem getByID_error_collapse_witness :
    TodoStorage.GetByID (some "boom") demoStore 1 = .error .todoNotFound :=
  (getByID_update_error_collapse (some "boom") demoStore 1 ⟨0, "t", false⟩ "1"
    (by decide)).2.1.mpr (Or.inl rfl)

/-- C3: for every create request: a body that fails to bind yields 400
"Invalid request body"; an empty title yields 400 "Title is required" with
no persistence call (the store is unchanged, whatever the database would
have done); otherwise the Todo is persisted and the response is 201 with
the created Todo carrying the store-assigned id. -/
theorem create_contract (s : Store) (now : Int) :
    (∀ fail, TodoHandler.Create fail s none now
      = (response.BadRequest "Invalid request body", s)) ∧
    (∀ fail (t : Todo), t.title = "" →
      TodoHandler.Create fail s (some t) now
        = (response.BadRequest "Title is required", s)) ∧
    (∀ t : Todo, ¬ t.title = "" →
      TodoHandler.Create none s (some t) now
        = (response.Created (Todo.toJson ⟨s.nextId, t.title, t.done⟩),
           ⟨s.rows ++ [⟨s.nextId, t.title, t.done, now⟩], s.nextId + 1⟩)) := by
  refine ⟨fun fail => rfl, fun fail t ht => ?_, fun t ht => ?_⟩
  · simp [TodoHandler.Create, ht]
  · simp [TodoHandler.Create, ht, TodoStorage.Create]

/-- C3: witness at a concrete store and request. -/
theorem create_contract_witness :
    TodoHandler.Create none demoStore (some ⟨0, "task", false⟩) 5
      = (response.Created (Todo.toJson ⟨2, "task", false⟩),
         ⟨demoStore.rows ++ [⟨2, "task", false, 5⟩], 3⟩) :=
  (create_contract demoStore 5).2.2 ⟨0, "task", false⟩ (by decide)

/-- keepRow holds exactly on rows whose id differs from the deleted id. -/
theorem keepRow_eq_true {id : Int} {r : Row} :
    keepRow id r = true ↔ ¬ r.id = id := by
  simp [keepRow]

/-- keepRow fails exactly on rows whose id equals the deleted id. -/
theorem keepRow_eq_false {id : Int} {r : Row} :
    keepRow id r = false ↔ r.id = id := by
  simp [keepRow]

/-- If no row matches the id, the DELETE's WHERE clause keeps every row. -/
theorem filter_keepRow_eq_self (rows : List Row) (id : Int)
    (h : ∀ r ∈ rows, ¬ r.id = id) :
    rows.filter (keepRow id) = rows := by
  rw [List.filter_eq_self]
  intro a ha
  exact keepRow_eq_true.mpr (h a ha)

/-- With pairwise-distinct ids (the primary key), deleting an existing id
affects exactly one row. -/
theorem length_filter_keepRow_of_mem (rows : List Row) (id : Int)
    (hnd : (rows.map Row.id).Nodup) (r : Row) (hr : r ∈ rows)
    (hid : r.id = id) :
    rows.length = (rows.filter (keepRow id)).length + 1 := by
  induction rows with
  | nil => cases hr
  | cons a l ih =>
    rw [List.map_cons, List.nodup_cons] at hnd
    rcases List.mem_cons.mp hr with h1 | h1
    · subst h1
      have hall : ∀ x ∈ l, ¬ x.id = id := by
        intro x hx hxa
        have hxm : x.id ∈ List.map Row.id l := List.mem_map_of_mem Row.id hx
        rw [hxa, ← hid] at hxm
        exact hnd.1 hxm
      have hk : keepRow id r = false := keepRow_eq_false.mpr hid
      simp [List.filter_cons, hk, filter_keepRow_eq_self l id hall]
    · by_cases ha : a.id = id
      · exfalso
        apply hnd.1
        have ham : r.id ∈ List.map Row.id l := List.mem_map_of_mem Row.id h1
        rw [hid, ← ha] at ham
        exact ham
      · have hrest := ih hnd.2 h1
        have hk : keepRow id a = true := keepRow_eq_true.mpr ha
        simp [List.filter_cons, hk]
        omega

/-- Rows surviving the DELETE never match the deleted id. -/
theorem find?_filter_keepRow_eq_none (rows : List Row) (id : Int) :
    (rows.filter (keepRow id)).find? (fun r => r.id = id) = none := by
  rw [List.find?_eq_none]
  intro x hx
  have := keepRow_eq_true.mp (List.mem_filter.mp hx).2
  simpa using this

/-- C4: delete on an id with no matching row confirms zero rows were
affected and reports NotFound, which the handler maps to 404 with the store
untouched — never a silent success; delete on an existing id responds 204
with no body, removes exactly that one row, and a subsequent get-by-id on
the same id yields 404. -/
theorem delete_contract (s : Store) (hWF : s.WF) (id : Int) (idStr : String)
    (hp : parseInt64 idStr = some id) :
    (s.rows.find? (fun r => r.id = id) = none →
      TodoHandler.Delete none s idStr = (response.NotFound "Todo not found", s)) ∧
    (∀ r ∈ s.rows, r.id = id →
      TodoHandler.Delete none s idStr
        = (response.NoContent, ⟨s.rows.filter (keepRow id), s.nextId⟩) ∧
      s.rows.length = (s.rows.filter (keepRow id)).length + 1 ∧
      TodoHandler.GetByID none ⟨s.rows.filter (keepRow id), s.nextId⟩
          idStr = response.NotFound "Todo not found") := by
  constructor
  · intro hf
    have hall : ∀ r ∈ s.rows, ¬ r.id = id := by
      intro r hr
      have := List.find?_eq_none.mp hf r hr
      simpa using this
    unfold TodoHandler.Delete
    rw [hp]
    simp [TodoStorage.Delete, filter_keepRow_eq_self s.rows id hall]
  · intro r hr hid
    have hone := length_filter_keepRow_of_mem s.rows id hWF.1 r hr hid
    have haff : ¬ (s.rows.length - (s.rows.filter (keepRow id)).length = 0) := by
      omega
    refine ⟨?_, hone, ?_⟩
    · unfold TodoHandler.Delete
      rw [hp]
      simp [TodoStorage.Delete, haff]
    · unfold TodoHandler.GetByID
      rw [hp]
      simp only [TodoStorage.GetByID, rawGetByID, find?_filter_keepRow_eq_none]

/-- C4: witness — deleting the one existing row of the demonstration store. -/
theorem delete_contract_witness :
    TodoHandler.Delete none demoStore "1" = (response.NoContent, ⟨[], 2⟩) ∧
    TodoHandler.GetByID none ⟨[], 2⟩ "1" = response.NotFound "Todo not found" := by
  have h := (delete_contract demoStore (by decide) 1 "1" (by decide)).2
    ⟨1, "buy milk", false, 0⟩ (by decide) rfl
  exact ⟨h.1, h.2.2⟩

/-- C10: any id path parameter that parses as a signed 64-bit integer —
zero, negative, explicitly signed — is never answered with 400 by the
get-by-id, update, or delete handlers; they reach the persistence lookup
and answer 404 when no row has that id. -/
theorem parsed_id_contract (s : Store) (idStr : String) (v : Int)
    (hp : parseInt64 idStr = some v) (t : Todo) (ht : ¬ t.title = "") :
    (TodoHandler.GetByID none s idStr).status ≠ 400 ∧
    (TodoHandler.Update none s idStr (some t)).1.status ≠ 400 ∧
    (TodoHandler.Delete none s idStr).1.status ≠ 400 ∧
    (s.rows.find? (fun r => r.id = v) = none →
      TodoHandler.GetByID none s idStr = response.NotFound "Todo not found" ∧
      (TodoHandler.Update none s idStr (some t)).1
        = response.NotFound "Todo not found" ∧
      (TodoHandler.Delete none s idStr).1
        = response.NotFound "Todo not found") := by
  refine ⟨?_, ?_, ?_, ?_⟩
  · unfold TodoHandler.GetByID
    rw [hp]
    cases hv : TodoStorage.GetByID none s v with
    | error e => simp [hv, response.NotFound]
    | ok x => simp [hv, response.OK]
  · unfold TodoHandler.Update
    rw [hp]
    cases hv : TodoStorage.Update none s v t with
    | error e => simp [ht, hv, response.NotFound]
    | ok p => simp [ht, hv, response.OK]
  · unfold TodoHandler.Delete
    rw [hp]
    cases hv : TodoStorage.Delete none s v with
    | error e => simp [hv, response.NotFound]
    | ok s' => simp [hv, response.NoContent]
  · intro hf
    have hall : ∀ r ∈ s.rows, ¬ r.id = v := by
      intro r hr
      have := List.find?_eq_none.mp hf r hr
      simpa using this
    refine ⟨?_, ?_, ?_⟩
    · unfold TodoHandler.GetByID
      rw [hp]
      simp [TodoStorage.GetByID, rawGetByID, hf]
    · unfold TodoHandler.Update
      rw [hp]
      simp [ht, TodoStorage.Update, rawUpdate, hf]
    · unfold TodoHandler.Delete
      rw [hp]
      simp [TodoStorage.Delete, filter_keepRow_eq_self s.rows v hall]

/-- C10: witness — the explicitly signed parameter "-5" parses, is not a
400, and yields 404 on the demonstration store. -/
theorem parsed_id_contract_witness :
    TodoHandler.GetByID none demoStore "-5" = response.NotFound "Todo not found" := by
  have h := parsed_id_contract demoStore "-5" (-5) (by decide) ⟨0, "x", false⟩
    (by decide)
  exact (h.2.2.2 (by decide)).1

/-- A freshly assigned SERIAL id matches no pre-existing row, so looking it
up right after the insert finds exactly the inserted row. -/
theorem find?_append_fresh (rows : List Row) (nid : Int) (new : Row)
    (hnew : new.id = nid) (hlt : ∀ r ∈ rows, r.id < nid) :
    (rows ++ [new]).find? (fun r => r.id = nid) = some new := by
  rw [List.find?_append]
  have h1 : rows.find? (fun r => r.id = nid) = none := by
    rw [List.find?_eq_none]
    intro x hx
    simp only [decide_eq_true_eq]
    exact ne_of_lt (hlt x hx)
  rw [h1]
  simp [List.find?_cons, hnew]

/-- C5: round-trip. Creating a Todo with a non-empty title through the
handler persists it under the freshly assigned SERIAL id — an id no
pre-existing row carries — and an immediate get-by-id with that id returns
a Todo with exactly the input's title and done and the new id. -/
theorem create_roundtrip (s : Store) (hWF : s.WF) (t : Todo)
    (ht : ¬ t.title = "") (now : Int) :
    (TodoHandler.Create none s (some t) now).2
      = ⟨s.rows ++ [⟨s.nextId, t.title, t.done, now⟩], s.nextId + 1⟩ ∧
    TodoStorage.Create none s t now
      = .ok (s.nextId, ⟨s.rows ++ [⟨s.nextId, t.title, t.done, now⟩], s.nextId + 1⟩) ∧
    TodoStorage.GetByID none
        ⟨s.rows ++ [⟨s.nextId, t.title, t.done, now⟩], s.nextId + 1⟩ s.nextId
      = .ok ⟨s.nextId, t.title, t.done⟩ ∧
    ∀ r ∈ s.rows, ¬ r.id = s.nextId := by
  have hfresh : ∀ r ∈ s.rows, ¬ r.id = s.nextId :=
    fun r hr => ne_of_lt (hWF.2 r hr)
  refine ⟨?_, rfl, ?_, hfresh⟩
  · simp [TodoHandler.Create, ht, TodoStorage.Create]
  · have hfind := find?_append_fresh s.rows s.nextId
      ⟨s.nextId, t.title, t.done, now⟩ rfl hWF.2
    simp only [TodoStorage.GetByID, rawGetByID, hfind]
    rfl

/-- C5: witness — create ⟨"x", done=true⟩ on the demonstration store, then
get id 2 back. -/
theorem create_roundtrip_witness :
    TodoStorage.GetByID none ⟨demoStore.rows ++ [⟨2, "x", true, 7⟩], 3⟩ 2
      = .ok ⟨2, "x", true⟩ :=
  (create_roundtrip demoStore (by decide) ⟨0, "x", true⟩ (by decide) 7).2.2.1

/-- A successful storage.Update inverted: some row matched the id, the
returned Todo is that row with the new title and done, and the store maps
exactly the matching rows. -/
theorem update_ok_inv (s : Store) (id : Int) (todo : Todo) (t : Todo)
    (s' : Store) (h : TodoStorage.Update none s id todo = .ok (t, s')) :
    ∃ r, s.rows.find? (fun x => x.id = id) = some r ∧
      t = ⟨r.id, todo.title, todo.done⟩ ∧
      s' = ⟨s.rows.map (fun x =>
              if x.id = id then { x with title := todo.title, done := todo.done }
              else x), s.nextId⟩ := by
  cases hf : s.rows.find? (fun x => x.id = id) with
  | none => simp [TodoStorage.Update, rawUpdate, hf] at h
  | some r =>
    simp only [TodoStorage.Update, rawUpdate, hf] at h
    rw [Except.ok.injEq, Prod.mk.injEq] at h
    exact ⟨r, rfl, h.1.symm, h.2.symm⟩

/-- C8: frame property of update. A successful update on an id keeps the
sequence length and nextId, preserves every row's id and created_at, leaves
every row whose id differs untouched, and rewrites only the matched row's
title and done to the request's values. -/
theorem update_frame (s : Store) (id : Int) (todo : Todo) (t : Todo)
    (s' : Store) (h : TodoStorage.Update none s id todo = .ok (t, s')) :
    s'.nextId = s.nextId ∧
    s'.rows.length = s.rows.length ∧
    ∀ i (hi : i < s.rows.length) (hi' : i < s'.rows.length),
      (s'.rows[i]).id = (s.rows[i]).id ∧
      (s'.rows[i]).createdAt = (s.rows[i]).createdAt ∧
      (¬ (s.rows[i]).id = id → s'.rows[i] = s.rows[i]) ∧
      ((s.rows[i]).id = id →
        (s'.rows[i]).title = todo.title ∧ (s'.rows[i]).done = todo.done) := by
  obtain ⟨r, hf, hteq, hs⟩ := update_ok_inv s id todo t s' h
  subst hs
  refine ⟨rfl, by simp, ?_⟩
  intro i hi hi'
  by_cases hx : (s.rows[i]).id = id
  · simp [List.getElem_map, hx]
  · simp [List.getElem_map, hx]

/-- C8: witness — updating the only row of the demonstration store. -/
theorem update_frame_witness :
    TodoStorage.Update none demoStore 1 ⟨0, "updated", true⟩
      = .ok (⟨1, "updated", true⟩, ⟨[⟨1, "updated", true, 0⟩], 2⟩) ∧
    (⟨[⟨1, "updated", true, 0⟩], 2⟩ : Store).nextId = demoStore.nextId := by
  refine ⟨rfl, ?_⟩
  exact (update_frame demoStore 1 ⟨0, "updated", true⟩ ⟨1, "updated", true⟩
    ⟨[⟨1, "updated", true, 0⟩], 2⟩ rfl).1

/-- Every HTTP-reachable transition of the durable store is one of: no
change; an insert of a fresh row with a non-empty title; an update of the
rows matching one id to a non-empty title; or a delete of the rows matching
one id.  (Reads never write, and both create and update return before the
storage call whenever the bound title is empty.) -/
theorem step_cases (s s' : Store) (h : Step s s') :
    s' = s ∨
    (∃ t : Todo, ∃ now : Int, ¬ t.title = "" ∧
      s' = ⟨s.rows ++ [⟨s.nextId, t.title, t.done, now⟩], s.nextId + 1⟩) ∨
    (∃ id : Int, ∃ t : Todo, ¬ t.title = "" ∧
      s' = ⟨s.rows.map (fun x =>
              if x.id = id then { x with title := t.title, done := t.done }
              else x), s.nextId⟩) ∨
    (∃ id : Int, s' = ⟨s.rows.filter (keepRow id), s.nextId⟩) := by
  cases h with
  | getAll s => exact Or.inl rfl
  | getByID s => exact Or.inl rfl
  | create fail body now s =>
    cases body with
    | none => exact Or.inl rfl
    | some t =>
      by_cases ht : t.title = ""
      · left
        simp [TodoHandler.Create, ht]
      · cases fail with
        | some m =>
          left
          simp [TodoHandler.Create, ht, TodoStorage.Create]
        | none =>
          right; left
          exact ⟨t, now, ht, by simp [TodoHandler.Create, ht, TodoStorage.Create]⟩
  | update fail idParam body s =>
    cases hid : parseInt64 idParam with
    | none =>
      left
      simp [TodoHandler.Update, hid]
    | some id =>
      cases body with
      | none =>
        left
        simp [TodoHandler.Update, hid]
      | some t =>
        by_cases ht : t.title = ""
        · left
          simp [TodoHandler.Update, hid, ht]
        · cases fail with
          | some m =>
            left
            simp [TodoHandler.Update, hid, ht, TodoStorage.Update, rawUpdate]
          | none =>
            cases hf : s.rows.find? (fun x => x.id = id) with
            | none =>
              left
              simp [TodoHandler.Update, hid, ht, TodoStorage.Update, rawUpdate, hf]
            | some r =>
              right; right; left
              refine ⟨id, t, ht, ?_⟩
              simp [TodoHandler.Update, hid, ht, TodoStorage.Update, rawUpdate, hf]
  | delete fail idParam s =>
    cases hid : parseInt64 idParam with
    | none =>
      left
      simp [TodoHandler.Delete, hid]
    | some id =>
      cases fail with
      | some m =>
        left
        simp [TodoHandler.Delete, hid, TodoStorage.Delete]
      | none =>
        by_cases haff : s.rows.length - (s.rows.filter (keepRow id)).length = 0
        · left
          simp [TodoHandler.Delete, hid, TodoStorage.Delete, haff]
        · right; right; right
          refine ⟨id, ?_⟩
          simp [TodoHandler.Delete, hid, TodoStorage.Delete, haff]

/-- C7: every persisted Todo has a non-empty title — the predicate holds of
the initial (empty) store and is preserved by every operation reachable
through the HTTP interface, because create and update reject empty titles
before any persistence call. -/
theorem titles_invariant :
    TitlesOK ⟨[], 1⟩ ∧ (∀ s s' : Store, TitlesOK s → Step s s' → TitlesOK s') := by
  constructor
  · intro r hr
    cases hr
  · intro s s' hT h
    rcases step_cases s s' h with hE | ⟨t, now, ht, hE⟩ | ⟨id, t, ht, hE⟩ | ⟨id, hE⟩
    · exact hE ▸ hT
    · subst hE
      intro r hr
      rcases List.mem_append.mp hr with h1 | h1
      · exact hT r h1
      · have h2 : r = ⟨s.nextId, t.title, t.done, now⟩ := List.mem_singleton.mp h1
        subst h2
        simpa using ht
    · subst hE
      intro r hr
      obtain ⟨x, hx, hfx⟩ := List.mem_map.mp hr
      subst hfx
      by_cases hxe : x.id = id
      · simpa [hxe] using ht
      · simpa [hxe] using hT x hx
    · subst hE
      intro r hr
      exact hT r (List.mem_filter.mp hr).1

/-- C7: witness — the invariant survives a concrete create on the empty
store. -/
theorem titles_invariant_witness :
    TitlesOK (TodoHandler.Create none ⟨[], 1⟩ (some ⟨0, "first", false⟩) 3).2 :=
  titles_invariant.2 ⟨[], 1⟩ _ titles_invariant.1
    (Step.create none (some ⟨0, "first", false⟩) 3 ⟨[], 1⟩)

/-- C6: the id is assigned exactly once, by the persistence layer: any id
the client supplies in the create body is ignored (the handler's result is
identical whatever id the bound payload carried) and overwritten with the
store-assigned id in the 201 response; the uniqueness invariant — no two
persisted rows share an id — holds of the initial store and is preserved by
every HTTP-reachable operation. -/
theorem id_assignment :
    (∀ (fail : Option String) (s : Store) (t : Todo) (clientId : Int) (now : Int),
      TodoHandler.Create fail s (some { t with id := clientId }) now
        = TodoHandler.Create fail s (some t) now) ∧
    (∀ (s : Store) (t : Todo) (now : Int), ¬ t.title = "" →
      (TodoHandler.Create none s (some t) now).1
        = response.Created (Todo.toJson ⟨s.nextId, t.title, t.done⟩)) ∧
    (Store.mk [] 1).WF ∧
    (∀ s s' : Store, s.WF → Step s s' → s'.WF) := by
  refine ⟨fun fail s t clientId now => rfl, fun s t now ht => ?_, by decide, ?_⟩
  · simp [TodoHandler.Create, ht, TodoStorage.Create]
  · intro s s' hWF h
    rcases step_cases s s' h with hE | ⟨t, now, ht, hE⟩ | ⟨id, t, ht, hE⟩ | ⟨id, hE⟩
    · exact hE ▸ hWF
    · subst hE
      constructor
      · rw [List.map_append]
        rw [List.nodup_append]
        refine ⟨hWF.1, List.nodup_singleton _, ?_⟩
        intro a ha hb
        obtain ⟨x, hx, hxa⟩ := List.mem_map.mp ha
        have hb' : a = s.nextId := by simpa using hb
        have hxn : x.id = s.nextId := hxa.trans hb'
        exact absurd hxn (ne_of_lt (hWF.2 x hx))
      · intro r hr
        rcases List.mem_append.mp hr with h1 | h1
        · exact lt_trans (hWF.2 r h1) (lt_add_one s.nextId)
        · have h2 : r = ⟨s.nextId, t.title, t.done, now⟩ := List.mem_singleton.mp h1
          subst h2
          exact lt_add_one s.nextId
    · subst hE
      have hids : (s.rows.map (fun x =>
          if x.id = id then { x with title := t.title, done := t.done }
          else x)).map Row.id = s.rows.map Row.id := by
        rw [List.map_map]
        apply List.map_congr_left
        intro x hx
        by_cases hxe : x.id = id <;> simp [hxe]
      constructor
      · show ((s.rows.map _).map Row.id).Nodup
        rw [hids]
        exact hWF.1
      · intro r hr
        obtain ⟨x, hx, hfx⟩ := List.mem_map.mp hr
        subst hfx
        by_cases hxe : x.id = id
        · simpa [hxe] using hWF.2 x hx
        · simpa [hxe] using hWF.2 x hx
    · subst hE
      constructor
      · exact ((List.filter_sublist s.rows).map Row.id).nodup hWF.1
      · intro r hr
        exact hWF.2 r (List.mem_filter.mp hr).1

/-- C6: witness — a client-supplied id 99 is ignored, and the invariant
survives a concrete create. -/
theorem id_assignment_witness :
    TodoHandler.Create none demoStore (some ⟨99, "x", true⟩) 0
      = TodoHandler.Create none demoStore (some ⟨0, "x", true⟩) 0 ∧
    (TodoHandler.Create none demoStore (some ⟨0, "x", true⟩) 0).2.WF := by
  constructor
  · exact id_assignment.1 none demoStore ⟨0, "x", true⟩ 99 0
  · exact id_assignment.2.2.2 demoStore _ (by decide)
      (Step.create none (some ⟨0, "x", true⟩) 0 demoStore)

/-- C9: counterexample. The variant list handler GetTodos hands the
persistence layer a fresh background context instead of the request's
context: for a request whose context is requestCtx 0 the persistence layer
receives background, which is not the request's context. -/
theorem getTodos_ctx_counterexample :
    TodoHandler.GetTodosPersistCtx (Ctx.requestCtx 0) = Ctx.background ∧
    ¬ Ctx.background = Ctx.requestCtx 0 :=
  ⟨rfl, by decide⟩

/-- C9: amended. The five CRUD handlers of the http/handlers variant pass
the request's context unmodified to their single persistence call, and the
service façade forwards its context unchanged; the variant list handler
GetTodos instead passes a fresh background context. -/
theorem handler_ctx_propagation (rc : Ctx) :
    TodoHandler.GetAllPersistCtx rc = rc ∧
    TodoHandler.GetByIDPersistCtx rc = rc ∧
    TodoHandler.CreatePersistCtx rc = rc ∧
    TodoHandler.UpdatePersistCtx rc = rc ∧
    TodoHandler.DeletePersistCtx rc = rc ∧
    TodoService.ListTodoRepoCtx rc = rc ∧
    TodoHandler.GetTodosPersistCtx rc = Ctx.background :=
  ⟨rfl, rfl, rfl, rfl, rfl, rfl, rfl⟩
